import Mathlib

/-!
Verification of the actuarial premium calculator (`src/app.py`) against its
natural-language specification.

The reusable core of the application is embedded shallowly:

* numbers flowing through the pandas DataFrame and the model prediction are
  modelled as rationals (`ℚ`); the user-supplied ages are Python integers,
  modelled as `Int`;
* the single-row DataFrame built by `format_input_data` is modelled as the
  list of its five column values, in column order;
* the deserialized predictor is an opaque structure `Model` exposing one
  fallible operation `predict`, which receives the encoded row and returns
  the list of predictions (sklearn returns one scalar per input row) or a
  raised exception, modelled as `Except.error`;
* the filesystem seen by `joblib.load` is a map from paths to either a
  successfully deserialized model, a deserialization failure message, or
  nothing at all (the `FileNotFoundError` case).
-/

namespace PremiumApp

/-- The conversion rate USD → UGX (`EXCHANGE_RATE = 3700`, src/app.py line 14). -/
def EXCHANGE_RATE : ℚ := 3700

/-- The default model path of `load_model` (src/app.py line 92). -/
def default_model_path : String := "gbm_auto_model.pkl"

/-- The dictionary `input_dict` built by `format_input_data`
(src/app.py lines 120-126): maps each column name to its single value. -/
def input_dict (age vehicle_age : Int) (location : String) :
    String → Option ℚ := fun col =>
  if col = "age" then some (age : ℚ)
  else if col = "vehicle_age" then some (vehicle_age : ℚ)
  else if col = "location_Rural" then some (if location = "Rural" then 1 else 0)
  else if col = "location_Suburban" then some (if location = "Suburban" then 1 else 0)
  else if col = "location_Urban" then some (if location = "Urban" then 1 else 0)
  else none

/-- `model_feature_order` (src/app.py line 128): the column order the model
was trained on. -/
def model_feature_order : List String :=
  ["age", "vehicle_age", "location_Rural", "location_Suburban", "location_Urban"]

/-- `format_input_data` (src/app.py lines 110-130): builds the single-row
DataFrame from `input_dict` and reindexes its columns to
`model_feature_order` (`input_df[model_feature_order]`).  The resulting row
is the list of the selected columns' values, in that order. -/
def format_input_data (age vehicle_age : Int) (location : String) : List ℚ :=
  (model_feature_order.map (input_dict age vehicle_age location)).filterMap id

/-- The opaque deserialized predictor (spec §3): one operation
`predict(rows) -> scalars`, applied by `main` to the single encoded row;
a raised exception (e.g. a shape rejection) is an `Except.error`. -/
structure Model where
  predict : List ℚ → Except String (List ℚ)

/-- Outcome of `load_model` (src/app.py lines 91-108): either the loaded
model, or one of the two fatal `st.stop` paths — the `FileNotFoundError`
branch (spec error kind `ModelNotFound`) or the catch-all branch
(spec error kind `ModelLoadError`). -/
inductive LoadOutcome where
  | ok (m : Model)
  | modelNotFound
  | modelLoadError (msg : String)

/-- The filesystem as seen by `joblib.load`: for each path, either no file
(`none`, raising `FileNotFoundError`), a file whose deserialization fails
with a message (`some (.error msg)`), or a deserializable model
(`some (.ok m)`). -/
def FileSystem := String → Option (Except String Model)

/-- `load_model` (src/app.py lines 101-108), one uncached execution of the
body: `joblib.load` on the path; `FileNotFoundError` is reported with
`st.error` and the script is stopped (`st.stop`), modelled as
`modelNotFound`; any other exception likewise stops the script, modelled as
`modelLoadError` carrying the message. -/
def load_model (fs : FileSystem) (model_path : String) : LoadOutcome :=
  match fs model_path with
  | none => .modelNotFound
  | some (.error e) => .modelLoadError e
  | some (.ok m) => .ok m

/-- Modelled from the spec: the memoization added by the
`@st.cache_resource` decorator on `load_model` (src/app.py line 91) is
Streamlit library code, not in `src/`.  Per the spec (§4.1), the loaded
artifact is cached by argument for the process lifetime; a repeated call
with the same path returns the cached instance without re-running the body.
The state is the association list of cached models; the returned `Nat`
counts how many times the body (hence `joblib.load`) ran during this call.
A body that stops the script caches nothing. -/
def load_model_cached (fs : FileSystem) (cache : List (String × Model))
    (model_path : String) : LoadOutcome × List (String × Model) × Nat :=
  match cache.lookup model_path with
  | some m => (.ok m, cache, 0)
  | none =>
    match load_model fs model_path with
    | .ok m => (.ok m, (model_path, m) :: cache, 1)
    | r => (r, cache, 1)

/-- Outcome of the prediction block of `main` (src/app.py lines 178-185)
for one submission: either the pair of premiums, or a propagated exception
from `model.predict` / the `[0]` indexing (spec error kind
`InferenceError`). -/
inductive InferOutcome where
  | result (usd ugx : ℚ)
  | inferenceError (msg : String)

/-- The prediction block of `main` (src/app.py lines 178-185): encode the
inputs, run `model.predict(input_df)[0]` to get the USD premium, multiply
by `EXCHANGE_RATE` for the UGX premium.  An exception raised by `predict`,
or by indexing an empty prediction array, propagates (`inferenceError`). -/
def compute_premium (model : Model) (age vehicle_age : Int)
    (location : String) : InferOutcome :=
  match model.predict (format_input_data age vehicle_age location) with
  | .error e => .inferenceError e
  | .ok preds =>
    match preds.head? with
    | some prediction_usd => .result prediction_usd (prediction_usd * EXCHANGE_RATE)
    | none => .inferenceError "index 0 is out of bounds"

/-- Outcome of one run of `main` (src/app.py lines 133-202) on a submission:
`halted` when `load_model` stopped the script (`st.stop`), so that neither
feature encoding nor inference is reached; otherwise the outcome of the
prediction block. -/
inductive RunOutcome where
  | halted
  | result (usd ugx : ℚ)
  | inferenceError (msg : String)

/-- One run of `main` on a submission (src/app.py lines 133-202): load the
model from the default path, then run the prediction block.  `st.stop`
during loading halts the run before `format_input_data` or `predict` is
reached. -/
def main_run (fs : FileSystem) (age vehicle_age : Int)
    (location : String) : RunOutcome :=
  match load_model fs default_model_path with
  | .ok model =>
    match compute_premium model age vehicle_age location with
    | .result u g => .result u g
    | .inferenceError e => .inferenceError e
  | _ => .halted

/-- The currency conversion `prediction_usd * EXCHANGE_RATE`
(src/app.py line 185), under the spec's name `toSecondaryCurrency`
(spec §4.4). -/
def toSecondaryCurrency (usd : ℚ) : ℚ := usd * EXCHANGE_RATE

/-- A valid `RiskInput` (spec §3): age in [18,80], vehicle_age in [1,20],
location one of the three widget options (src/app.py lines 147-158). -/
def ValidRiskInput (age vehicle_age : Int) (location : String) : Prop :=
  18 ≤ age ∧ age ≤ 80 ∧ 1 ≤ vehicle_age ∧ vehicle_age ≤ 20 ∧
    (location = "Urban" ∨ location = "Suburban" ∨ location = "Rural")

instance (age vehicle_age : Int) (location : String) :
    Decidable (ValidRiskInput age vehicle_age location) := by
  unfold ValidRiskInput; infer_instance

/-- Evaluating the reindexed DataFrame: the row emitted by
`format_input_data` is exactly age, vehicle_age and the three one-hot
location indicators, in the order of `model_feature_order`. -/
lemma format_input_data_eq (a v : Int) (l : String) :
    format_input_data a v l =
      [(a : ℚ), (v : ℚ),
       if l = "Rural" then 1 else 0,
       if l = "Suburban" then 1 else 0,
       if l = "Urban" then 1 else 0] := by
  simp [format_input_data, model_feature_order, input_dict]

/-- The stub model of the end-to-end spec test: `predict` always returns
`2.5`. -/
def stubModel : Model := ⟨fun _ => .ok [2.5]⟩

/-- A model that rejects one particular row's shape and succeeds on the
others, for exercising the `InferenceError` path. -/
def flakyModel : Model :=
  ⟨fun row => if row = format_input_data 30 3 "Urban" then .error "shape mismatch"
    else .ok [2.5]⟩

/-- An empty filesystem: no path exists. -/
def emptyFs : FileSystem := fun _ => none

/-- A filesystem carrying `stubModel` at the default path. -/
def stubFs : FileSystem := fun p =>
  if p = default_model_path then some (.ok stubModel) else none

/-- A filesystem carrying `flakyModel` at the default path. -/
def flakyFs : FileSystem := fun p =>
  if p = default_model_path then some (.ok flakyModel) else none

/-- Claim C1: for every valid `RiskInput`, `format_input_data` emits the
five fields in the fixed order age, vehicle_age, location_Rural,
location_Suburban, location_Urban; in particular it maps
(40, 5, "Urban") to [40, 5, 0, 0, 1] and (18, 1, "Rural") to
[18, 1, 1, 0, 0]. -/
theorem spec_C1 :
    (∀ (a v : Int) (l : String), ValidRiskInput a v l →
      format_input_data a v l =
        [(a : ℚ), (v : ℚ),
         if l = "Rural" then 1 else 0,
         if l = "Suburban" then 1 else 0,
         if l = "Urban" then 1 else 0]) ∧
    format_input_data 40 5 "Urban" = [40, 5, 0, 0, 1] ∧
    format_input_data 18 1 "Rural" = [18, 1, 1, 0, 0] := by
  refine ⟨fun a v l _ => format_input_data_eq a v l, ?_, ?_⟩ <;>
    simp [format_input_data_eq]

/-- Witness for C1: the universally quantified part applied to the valid
input (40, 5, "Urban"). -/
theorem spec_C1_witness :
    ValidRiskInput 40 5 "Urban" ∧
      format_input_data 40 5 "Urban" =
        [((40 : Int) : ℚ), ((5 : Int) : ℚ),
         if "Urban" = "Rural" then 1 else 0,
         if "Urban" = "Suburban" then 1 else 0,
         if "Urban" = "Urban" then 1 else 0] :=
  ⟨by decide, spec_C1.1 40 5 "Urban" (by decide)⟩

/-- Claim C2: for every valid `RiskInput`, the encoded row has 5 entries,
exactly one of the three location columns is 1, the other two are 0, and
the three location columns sum to exactly 1. -/
theorem spec_C2 (a v : Int) (l : String) (h : ValidRiskInput a v l) :
    (format_input_data a v l).length = 5 ∧
    ((format_input_data a v l).drop 2).sum = 1 ∧
    ((format_input_data a v l).drop 2).count 1 = 1 ∧
    ((format_input_data a v l).drop 2).count 0 = 2 := by
  obtain ⟨-, -, -, -, hl | hl | hl⟩ := h <;> subst hl <;>
    simp [format_input_data_eq, List.count_cons]

/-- Witness for C2: the property at the concrete valid input
(40, 5, "Suburban"). -/
theorem spec_C2_witness :
    (format_input_data 40 5 "Suburban").length = 5 ∧
    ((format_input_data 40 5 "Suburban").drop 2).sum = 1 ∧
    ((format_input_data 40 5 "Suburban").drop 2).count 1 = 1 ∧
    ((format_input_data 40 5 "Suburban").drop 2).count 0 = 2 :=
  spec_C2 40 5 "Suburban" (by decide)

/-- Claim C3: if the loaded model's `predict` returns 2.5 on the encoded
row, then submitting (40, 5, "Suburban") produces the premiums usd = 2.5
and ugx = 9250 (usd * 3700, no internal rounding). -/
theorem spec_C3 (model : Model)
    (h : model.predict (format_input_data 40 5 "Suburban") = .ok [(2.5 : ℚ)]) :
    compute_premium model 40 5 "Suburban" = .result 2.5 9250 := by
  unfold compute_premium
  rw [h]
  norm_num [EXCHANGE_RATE]

/-- Witness for C3: the end-to-end property at the stub model that always
predicts 2.5. -/
theorem spec_C3_witness :
    compute_premium stubModel 40 5 "Suburban" = .result 2.5 9250 :=
  spec_C3 stubModel rfl

/-- Claim C4: for every path missing from the filesystem, `load_model`
fails with ModelNotFound — never a different error kind, never a usable
model — and a run of `main` halts (`st.stop`) before feature encoding or
inference is reached. -/
theorem spec_C4 :
    (∀ (fs : FileSystem) (p : String), fs p = none →
      load_model fs p = .modelNotFound) ∧
    (∀ fs : FileSystem, fs default_model_path = none →
      ∀ (a v : Int) (l : String), main_run fs a v l = .halted) := by
  constructor
  · intro fs p hp
    simp [load_model, hp]
  · intro fs hp a v l
    simp [main_run, load_model, hp]

/-- Witness for C4: both parts at the empty filesystem. -/
theorem spec_C4_witness :
    load_model emptyFs default_model_path = .modelNotFound ∧
      main_run emptyFs 40 5 "Urban" = .halted :=
  ⟨spec_C4.1 emptyFs default_model_path rfl, spec_C4.2 emptyFs rfl 40 5 "Urban"⟩

/-- Claim C5: starting from the empty process-lifetime cache, two calls of
the cached loader with the same path both return the identical cached
instance, and the loader body (hence `joblib.load`) runs exactly once
across the two calls. -/
theorem spec_C5 (fs : FileSystem) (p : String) (m : Model)
    (h : load_model fs p = .ok m) :
    (load_model_cached fs [] p).1 = .ok m ∧
    (load_model_cached fs (load_model_cached fs [] p).2.1 p).1 = .ok m ∧
    (load_model_cached fs [] p).2.2 +
      (load_model_cached fs (load_model_cached fs [] p).2.1 p).2.2 = 1 := by
  simp [load_model_cached, h, List.lookup]

/-- Witness for C5: the caching property at the stub filesystem and the
default path. -/
theorem spec_C5_witness :
    (load_model_cached stubFs [] default_model_path).1 = .ok stubModel ∧
    (load_model_cached stubFs
      (load_model_cached stubFs [] default_model_path).2.1
      default_model_path).1 = .ok stubModel ∧
    (load_model_cached stubFs [] default_model_path).2.2 +
      (load_model_cached stubFs
        (load_model_cached stubFs [] default_model_path).2.1
        default_model_path).2.2 = 1 :=
  spec_C5 stubFs default_model_path stubModel rfl

/-- Claim C6: `toSecondaryCurrency usd = usd * 3700` for every usd; in
particular 100 maps to 370000 and 0 to 0, and the function is linear. -/
theorem spec_C6 :
    (∀ usd : ℚ, toSecondaryCurrency usd = usd * 3700) ∧
    toSecondaryCurrency 100 = 370000 ∧
    toSecondaryCurrency 0 = 0 ∧
    (∀ a b : ℚ,
      toSecondaryCurrency (a + b) = toSecondaryCurrency a + toSecondaryCurrency b) := by
  refine ⟨fun _ => rfl, by norm_num [toSecondaryCurrency, EXCHANGE_RATE],
    by norm_num [toSecondaryCurrency], fun a b => ?_⟩
  simp [toSecondaryCurrency]
  ring

/-- Claim C7: when the model rejects one submission's row, that run reports
an `InferenceError` (the process does not crash: the run still produces a
reportable outcome, not a halt), and a subsequent submission against the
same loaded model still succeeds. -/
theorem spec_C7 (fs : FileSystem) (model : Model) (msg : String) (usd : ℚ)
    (a v : Int) (l : String) (a2 v2 : Int) (l2 : String)
    (hfs : fs default_model_path = some (.ok model))
    (hbad : model.predict (format_input_data a v l) = .error msg)
    (hgood : model.predict (format_input_data a2 v2 l2) = .ok [usd]) :
    main_run fs a v l = .inferenceError msg ∧
    main_run fs a2 v2 l2 = .result usd (usd * EXCHANGE_RATE) := by
  constructor <;> simp [main_run, load_model, hfs, compute_premium, hbad, hgood]

/-- Witness for C7: a model that rejects the row of (30, 3, "Urban") and
predicts 2.5 elsewhere; the failing submission errors, the next one
succeeds. -/
theorem spec_C7_witness :
    main_run flakyFs 30 3 "Urban" = .inferenceError "shape mismatch" ∧
    main_run flakyFs 40 5 "Suburban" = .result 2.5 (2.5 * EXCHANGE_RATE) :=
  spec_C7 flakyFs flakyModel "shape mismatch" 2.5 30 3 "Urban" 40 5 "Suburban"
    rfl (by simp [flakyModel]) (by simp [flakyModel, format_input_data_eq])

/-- Claim C8: if the location is none of the three recognized values, all
three location indicator columns are 0 (no error is raised: the encoder is
total). -/
theorem spec_C8 (a v : Int) (l : String)
    (h1 : l ≠ "Urban") (h2 : l ≠ "Suburban") (h3 : l ≠ "Rural") :
    (format_input_data a v l).drop 2 = [0, 0, 0] := by
  simp [format_input_data_eq, h1, h2, h3]

/-- Witness for C8: the unrecognized location "Nairobi". -/
theorem spec_C8_witness :
    (format_input_data 40 5 "Nairobi").drop 2 = [0, 0, 0] :=
  spec_C8 40 5 "Nairobi" (by decide) (by decide) (by decide)

/-- Claim C9: for every integer age and vehicle_age — also outside the
widget ranges — and every location string, the encoded row starts with the
given age and vehicle_age verbatim: the core performs no range validation
or clamping. -/
theorem spec_C9 (a v : Int) (l : String) :
    (format_input_data a v l).take 2 = [(a : ℚ), (v : ℚ)] := by
  simp [format_input_data_eq]

/-- Claim C10: for every location string, the sum of the three location
indicator columns is 0 or 1 (at most one indicator is ever set), and it is
1 exactly when the location is the case-sensitive string "Rural",
"Suburban" or "Urban". -/
theorem spec_C10 (a v : Int) (l : String) :
    (((format_input_data a v l).drop 2).sum = 0 ∨
      ((format_input_data a v l).drop 2).sum = 1) ∧
    ((format_input_data a v l).drop 2).count 1 ≤ 1 ∧
    (((format_input_data a v l).drop 2).sum = 1 ↔
      (l = "Rural" ∨ l = "Suburban" ∨ l = "Urban")) := by
  by_cases h1 : l = "Rural" <;> by_cases h2 : l = "Suburban" <;>
    by_cases h3 : l = "Urban" <;>
    simp_all [format_input_data_eq, List.count_cons]

end PremiumApp
